import Mathlib

/-!
# Shallow embedding of `main.py` (universal text-to-speech utility)

This file embeds the behaviour of the program's `TTSManager` facade
(`speak`, `_speak_online`, `_speak_offline`, `_set_offline_voice`,
`_get_temp_path`, `play_audio`) and of the command-line frontend
(`run_cli`) as executable Lean definitions, and proves properties of the
specification against them.

Modelling conventions:
* Python floats are modelled as exact rationals (`ℚ`); every numeric
  value exercised by the theorems is far from binary-float rounding
  boundaries, so the rational model agrees with the float computation.
* Python exceptions that escape a function are modelled with `Except`;
  exceptions that the source swallows (`try`/`except`/`pass`) are
  modelled by flags/`Option` fields that select the fallback behaviour.
* Side effects on the external backends (gTTS calls, pyttsx3 engine
  mutation and rendering, spawned player processes) are recorded in an
  explicit trace, so "nothing happened before the error" is statable.
* The randomness of `uuid.uuid4().hex` and the contents of the file
  system are inputs to the model (an explicit hex string, a lookup
  function `String → Option String`).
-/

set_option autoImplicit false

namespace TTS

/-! ## Python string helpers -/

/-- The whitespace characters recognised by Python's `str.strip()`. -/
def pyIsSpace (c : Char) : Bool :=
  c = ' ' || c = '\t' || c = '\n' || c = '\r' || c = '\x0b' || c = '\x0c'

/-- Python `s.strip()`: remove leading and trailing whitespace. -/
def pyStrip (s : String) : String :=
  String.mk (((s.toList.dropWhile pyIsSpace).reverse.dropWhile pyIsSpace).reverse)

/-- Does `needle` occur as a contiguous run inside `hay`? -/
def isInfixB (needle : List Char) : List Char → Bool
  | [] => needle.isEmpty
  | c :: cs => needle.isPrefixOf (c :: cs) || isInfixB needle cs

/-- Python `needle in hay` on strings: substring containment
(`"" in s` is `True`, as in Python). -/
def pyInStr (needle hay : String) : Bool :=
  isInfixB needle.toList hay.toList

/-- Python `int(q)` on a numeric value: truncation toward zero. -/
def pyInt (q : ℚ) : Int :=
  q.num.tdiv (q.den : Int)

/-- Python truthiness of an optional string: `None` and `""` are falsy. -/
def pyTruthyStr : Option String → Bool
  | none => false
  | some s => !s.isEmpty

/-! ## Data model of the offline engine (pyttsx3 handle) -/

/-- One entry of the engine's voice table: `voice.id`, and the
`voice.languages` attribute when present (`hasattr` is `none`/`some`). -/
structure Voice where
  id : String
  languages : Option (List String)
  deriving DecidableEq, Repr

/-- The state of the process-wide pyttsx3 engine.

`voices`: result of `getProperty('voices')`; `none` models the read
raising (the whole `_set_offline_voice` body is inside `try`/`except`).

`rate`: the engine's current rate property; `none` models
`getProperty('rate')` raising, returning `None`, or returning a value
`int()` cannot convert — every one of those paths makes the source fall
back to the base rate 200, as does a falsy (zero) reading. -/
structure OfflineEngine where
  currentVoice : String
  rate : Option Int
  voices : Option (List Voice)
  deriving DecidableEq, Repr

/-- The `TTSManager` object: its only field is the optional offline
engine handle (`None` when pyttsx3 is absent or `pyttsx3.init()` failed). -/
structure TTSManager where
  offline_engine : Option OfflineEngine
  deriving DecidableEq, Repr

/-- Module-level globals and ambient OS state used by the manager: the
`HAS_GTTS` flag, `tempfile.gettempdir()`, and the offline engine handle
that `TTSManager.__init__` installs (`none` when pyttsx3 is absent or
`pyttsx3.init()` raised at construction). -/
structure Env where
  hasGtts : Bool
  tmpdir : String
  initEngine : Option OfflineEngine
  deriving DecidableEq, Repr

/-- Errors raised out of `speak` (Python exception, with its message). -/
inductive TTSError where
  /-- `ValueError` — the spec's `ValidationError`. -/
  | valueError (msg : String)
  /-- `ImportError` — the spec's `UnavailableBackendError`. -/
  | importError (msg : String)
  deriving DecidableEq, Repr

/-- Externally observable backend side effects, in execution order. -/
inductive Effect where
  /-- `gTTS(text=text, lang=lang)` — the cloud synthesis request. -/
  | gttsSynthesize (text lang : String)
  /-- `tts.save(path)` — the cloud result written to disk. -/
  | gttsSave (path : String)
  /-- `engine.setProperty('voice', id)`. -/
  | engineSetVoice (id : String)
  /-- `engine.setProperty('rate', r)`. -/
  | engineSetRate (r : Int)
  /-- `engine.save_to_file(text, path)`. -/
  | engineSaveToFile (text path : String)
  /-- `engine.runAndWait()` — the blocking local render. -/
  | engineRunAndWait
  deriving DecidableEq, Repr

/-- Result of one `speak` call: the manager state afterwards, the trace
of backend effects that ran, and the returned path or raised error. -/
abbrev SpeakResult := TTSManager × List Effect × Except TTSError String

/-! ## TTSManager methods -/

/-- `TTSManager._get_temp_path`: `os.path.join(tempfile.gettempdir(),
f"tts_{uuid.uuid4().hex[:8]}.mp3")`, with the drawn `uuid4().hex`
supplied as `uuidHex`. `os.path.join` on the POSIX platforms this
utility targets inserts a single separator. -/
def get_temp_path (tmpdir uuidHex : String) : String :=
  tmpdir ++ "/" ++ ("tts_" ++ String.mk (uuidHex.toList.take 8) ++ ".mp3")

/-- `TTSManager._speak_online` (lines 43–49): fail with `ImportError`
when gTTS is absent, else submit to gTTS and save to the chosen path.
`save_path = output_file if output_file else self._get_temp_path()`
chooses by Python truthiness: absent and empty output paths fall back
to the generated temp path. -/
def speak_online (env : Env) (m : TTSManager) (text lang : String)
    (output_file : Option String) (uuidHex : String) : SpeakResult :=
  if !env.hasGtts then
    (m, [], .error (.importError "gTTS is not installed."))
  else
    let save_path := if pyTruthyStr output_file then output_file.getD ""
      else get_temp_path env.tmpdir uuidHex
    (m, [.gttsSynthesize text lang, .gttsSave save_path], .ok save_path)

/-- The match test of `_set_offline_voice` line 81:
`lang in voice.id or (hasattr(voice, 'languages') and
lang in getattr(voice, 'languages', []))`. -/
def voiceMatches (lang : String) (v : Voice) : Bool :=
  pyInStr lang v.id ||
    (match v.languages with
      | some ls => ls.contains lang
      | none => false)

/-- `TTSManager._set_offline_voice` (lines 77–85): scan the voice table
for the first match and select it; on no match, or when reading the
table raises, change nothing (the body is wrapped in `try`/`except`). -/
def set_offline_voice (e : OfflineEngine) (lang : String) :
    OfflineEngine × List Effect :=
  match e.voices with
  | none => (e, [])
  | some vs =>
    match vs.find? (voiceMatches lang) with
    | some v => ({ e with currentVoice := v.id }, [.engineSetVoice v.id])
    | none => (e, [])

/-- Lines 57–60: `int(self.offline_engine.getProperty('rate') or 200)`
inside `try`/`except` with fallback 200. A raising read, a `None`
reading and an unconvertible reading all collapse to the `none` case;
a falsy `0` reading takes the `or 200` branch. -/
def base_rate_of (rate : Option Int) : Int :=
  match rate with
  | none => 200
  | some r => if r = 0 then 200 else r

/-- `TTSManager._speak_offline` (lines 51–75) on an initialised engine:
select a voice, set the rate to `int(base_rate * float(speed))`, render
to the explicit output file or to a fresh temp path, and return the
path. The `setProperty('rate', ...)` succeeds in this model (its
`try`/`except` guards only the property call itself). The source's two
rendering branches (`if output_file:` by Python truthiness, lines
67–75) run the same save/wait sequence and differ only in which path
they use, so they are modelled as one branch on the chosen path. -/
def speak_offline_engine (env : Env) (e : OfflineEngine) (text lang : String)
    (output_file : Option String) (speed : ℚ) (uuidHex : String) :
    OfflineEngine × List Effect × Except TTSError String :=
  let ve := set_offline_voice e lang
  let base_rate := base_rate_of ve.1.rate
  let new_rate := pyInt ((base_rate : ℚ) * speed)
  let e2 : OfflineEngine := { ve.1 with rate := some new_rate }
  let save_path := if pyTruthyStr output_file then output_file.getD ""
    else get_temp_path env.tmpdir uuidHex
  (e2,
   ve.2 ++ [.engineSetRate new_rate,
            .engineSaveToFile text save_path, .engineRunAndWait],
   .ok save_path)

/-- `TTSManager._speak_offline` availability guard (lines 52–53) plus
the engine body. -/
def speak_offline (env : Env) (m : TTSManager) (text lang : String)
    (output_file : Option String) (speed : ℚ) (uuidHex : String) : SpeakResult :=
  match m.offline_engine with
  | none => (m, [], .error (.importError "pyttsx3 is not working."))
  | some e =>
    let r := speak_offline_engine env e text lang output_file speed uuidHex
    (⟨some r.1⟩, r.2.1, r.2.2)

/-- `TTSManager.speak` (lines 34–41): validate non-blank text, then
dispatch on the engine tag — `"online"` to the cloud path, every other
tag to the offline path. -/
def speak (env : Env) (m : TTSManager) (text engine_type lang : String)
    (output_file : Option String) (speed : ℚ) (uuidHex : String) : SpeakResult :=
  if (pyStrip text).isEmpty then
    (m, [], .error (.valueError "Text is empty"))
  else if engine_type = "online" then
    speak_online env m text lang output_file uuidHex
  else
    speak_offline env m text lang output_file speed uuidHex

/-- Floor of a rational number. -/
def ratFloor (q : ℚ) : Int := q.num.fdiv (q.den : Int)

/-- Modelled from the spec: the local rate computation the spec claims,
`round(currentEngineRate × speedMultiplier)` — round to the nearest
integer (half rounds up here; the boundary convention is immaterial at
every input used below). The code instead applies Python `int()`; the
two are compared in the theorems. -/
def spec_rate_rounded (rate : Option Int) (speed : ℚ) : Int :=
  ratFloor ((base_rate_of rate : ℚ) * speed + 1/2)

/-! ## The audio playback dispatcher (`TTSManager.play_audio`) -/

/-- `platform.system()` as seen by `play_audio`. -/
inductive OSKind where
  | windows
  | darwin
  | other
  deriving DecidableEq, Repr

/-- Ambient OS facts probed by `play_audio`: the platform, which
programs `TTSManager._which` finds, whether a `subprocess.Popen` /
`subprocess.call` / `os.startfile` on the given command raises, and
whether `os` has the `startfile` attribute at all. -/
structure PlayEnv where
  system : OSKind
  which : String → Bool
  popenOk : List String → Bool
  callOk : List String → Bool
  startfileOk : Bool
  hasStartfile : Bool

/-- One attempted playback mechanism, in the order `play_audio` tries
them. `popen` and `startfile` spawn and return immediately;
`callBlocking` is `subprocess.call`, which waits for the child to
exit. -/
inductive Invocation where
  /-- `subprocess.Popen(cmd)` — non-blocking spawn. -/
  | popen (cmd : List String)
  /-- `subprocess.call(cmd)` — blocks until the child exits. -/
  | callBlocking (cmd : List String)
  /-- `os.startfile(path)` — non-blocking. -/
  | startfile (path : String)
  /-- `messagebox.showwarning` telling the user speed needs mpv. -/
  | warnSpeedNotice
  /-- `messagebox.showerror` reporting a fatal playback failure. -/
  | showErrorPlayback
  deriving DecidableEq, Repr

/-- Does this invocation block waiting for the spawned program? -/
def blocks : Invocation → Bool
  | .callBlocking _ => true
  | _ => false

/-- The warning emitted after a speed-incapable mechanism succeeded
while a non-default speed was requested (`float(speed) != 1.0`). -/
def warnIfSpeed (speed : ℚ) : List Invocation :=
  if speed ≠ 1 then [.warnSpeedNotice] else []

/-- The mpv command of lines 103–105: the base invocation, with the
speed flag exactly when `float(speed) != 1.0`. (The flag's numeral is
rendered from the exact rational; its spelling is not load-bearing.) -/
def mpv_cmd (filename : String) (speed : ℚ) : List String :=
  if speed ≠ 1 then ["mpv", "--speed=" ++ toString speed, filename]
  else ["mpv", filename]

/-- The last-resort block of lines 143–152: `os.startfile` when the
attribute exists, else `subprocess.call(["xdg-open", ...])`; a raise
lands in the `except` that shows the fatal playback error. -/
def last_resort (env : PlayEnv) (filename : String) (speed : ℚ) :
    List Invocation :=
  if env.hasStartfile then
    if env.startfileOk then .startfile filename :: warnIfSpeed speed
    else [.startfile filename, .showErrorPlayback]
  else
    if env.callOk ["xdg-open", filename] then
      .callBlocking ["xdg-open", filename] :: warnIfSpeed speed
    else [.callBlocking ["xdg-open", filename], .showErrorPlayback]

/-- The ordered Linux fallback players of line 132. -/
def linux_players : List String := ["mpg123", "aplay", "paplay", "xdg-open"]

/-- The Linux loop of lines 133–141: first installed player is spawned
with `Popen`; a raising spawn `continue`s to the next candidate; an
exhausted list falls through to the last resort. -/
def play_linux_loop (env : PlayEnv) (filename : String) (speed : ℚ) :
    List String → List Invocation
  | [] => last_resort env filename speed
  | p :: rest =>
    if env.which p then
      if env.popenOk [p, filename] then
        .popen [p, filename] :: warnIfSpeed speed
      else
        .popen [p, filename] :: play_linux_loop env filename speed rest
    else play_linux_loop env filename speed rest

/-- The platform dispatch of lines 112–141 (reached only when mpv was
not used): Windows `os.startfile`, Darwin blocking `afplay`, else the
Linux candidate loop. A raising mechanism falls through to the last
resort with its attempt recorded. -/
def play_platform (env : PlayEnv) (filename : String) (speed : ℚ) :
    List Invocation :=
  match env.system with
  | .windows =>
    if env.startfileOk then .startfile filename :: warnIfSpeed speed
    else .startfile filename :: last_resort env filename speed
  | .darwin =>
    if env.callOk ["afplay", filename] then
      .callBlocking ["afplay", filename] :: warnIfSpeed speed
    else .callBlocking ["afplay", filename] :: last_resort env filename speed
  | .other => play_linux_loop env filename speed linux_players

/-- `TTSManager.play_audio` (lines 98–152) as the ordered trace of
attempted mechanisms: mpv first whenever installed (with the speed flag
exactly for non-default speed), then the platform dispatch if the mpv
spawn raised or mpv is absent. -/
def play_audio (env : PlayEnv) (filename : String) (speed : ℚ) :
    List Invocation :=
  if env.which "mpv" then
    if env.popenOk (mpv_cmd filename speed) then
      [.popen (mpv_cmd filename speed)]
    else .popen (mpv_cmd filename speed) :: play_platform env filename speed
  else play_platform env filename speed

/-! ## The command-line frontend (`run_cli`) -/

/-- The parsed argparse namespace of lines 310–319. `text` is the
optional positional argument, `input` the `--input` (alias `-i`)
option; both are
`None` when absent. `engine` is constrained by argparse to
`offline`/`online` (default `offline`), `lang` defaults to `en`,
`speed` to `1.0`. -/
structure CliArgs where
  text : Option String
  input : Option String
  engine : String
  lang : String
  file : Option String
  play : Bool
  speed : ℚ
  deriving DecidableEq, Repr

/-- How one CLI run terminates. `exit1` is `sys.exit(1)` after printing
the given line; `completed` is falling off the end of `run_cli` (process
exit code 0), carrying the manager exception that was caught and
printed with an `Error:` prefix, if any. -/
inductive CliResult where
  | exit1 (printed : String)
  | completed (printedError : Option TTSError)
  deriving DecidableEq, Repr

/-- Lines 321–328: resolve the text to speak. A truthy `--input` wins:
a missing file is the fatal error case (carrying the path), otherwise
the file's contents are the text and the positional argument is never
consulted. Without a truthy `--input`, the positional argument is the
text. -/
def resolve_text (fs : String → Option String) (args : CliArgs) :
    Except String (Option String) :=
  if pyTruthyStr args.input then
    let p := args.input.getD ""
    match fs p with
    | none => .error p
    | some contents => .ok (some contents)
  else .ok args.text

/-- Lines 334–347: construct the manager and run `speak` inside
`try`/`except`; any exception is caught and printed with an `Error:`
prefix and the function still returns normally (exit code 0). The
`--file`/`--play` follow-ups only print or play and cannot change the
termination status (`play_audio` never raises to its caller). -/
def cli_speak_phase (env : Env) (args : CliArgs) (text : String)
    (uuidHex : String) : CliResult :=
  match (speak env ⟨env.initEngine⟩ text args.engine args.lang args.file
      args.speed uuidHex).2.2 with
  | .error e => .completed (some e)
  | .ok _ => .completed none

/-- `run_cli` (lines 309–347): resolve the text, exit(1) on a missing
`--input` file or on falsy resolved text, otherwise run the speak
phase. -/
def run_cli (env : Env) (fs : String → Option String) (args : CliArgs)
    (uuidHex : String) : CliResult :=
  match resolve_text fs args with
  | .error p => .exit1 ("Error: File " ++ p ++ " not found.")
  | .ok t =>
    if !pyTruthyStr t then
      .exit1 "Error: No text provided. Use arguments or run without arguments for GUI."
    else
      cli_speak_phase env args (t.getD "") uuidHex

/-! ## Helper lemmas -/

/-- Stripping a string made only of whitespace leaves the empty string. -/
theorem pyStrip_eq_empty_of_all_space {s : String}
    (h : s.toList.all pyIsSpace = true) : pyStrip s = "" := by
  have h1 : s.toList.dropWhile pyIsSpace = [] := by
    rw [List.dropWhile_eq_nil_iff]
    intro x hx
    exact List.all_eq_true.mp h x hx
  unfold pyStrip
  rw [h1]
  rfl

/-! ## Theorems for the claims -/

/-- C1: for every engine tag, language, output path and speed, `speak`
on empty or whitespace-only text raises the validation error
(`ValueError`) with the manager state untouched and an empty backend
effect trace — the check precedes any backend dispatch. -/
theorem speak_blank_text_validation_error
    (env : Env) (m : TTSManager) (text engine_type lang : String)
    (output_file : Option String) (speed : ℚ) (uuidHex : String)
    (h : text.toList.all pyIsSpace = true) :
    speak env m text engine_type lang output_file speed uuidHex
      = (m, [], .error (.valueError "Text is empty")) := by
  unfold speak
  rw [pyStrip_eq_empty_of_all_space h]
  rfl

/-- Witness for C1: `speak` on `"   "` with the cloud tag fails with
the validation error, touching nothing. -/
theorem speak_blank_text_validation_error_witness :
    speak ⟨true, "/tmp", none⟩ ⟨none⟩ "   " "online" "en" none 1 "u"
      = (⟨none⟩, [], .error (.valueError "Text is empty")) :=
  speak_blank_text_validation_error ⟨true, "/tmp", none⟩ ⟨none⟩ "   "
    "online" "en" none 1 "u" (by decide)

/-- C4: with the gTTS dependency absent, `speak` on the cloud tag and
non-blank text fails with exactly the `ImportError` (the spec's
`UnavailableBackendError`), and the empty effect trace shows the
failure precedes any synthesis request or file write. -/
theorem speak_online_unavailable
    (env : Env) (m : TTSManager) (text lang : String)
    (output_file : Option String) (speed : ℚ) (uuidHex : String)
    (hg : env.hasGtts = false)
    (hnb : (pyStrip text).isEmpty = false) :
    speak env m text "online" lang output_file speed uuidHex
      = (m, [], .error (.importError "gTTS is not installed.")) := by
  unfold speak speak_online
  simp [hnb, hg]

/-- Witness for C4: with `HAS_GTTS = False` the cloud call on `"hi"`
fails with the import error and no effects. -/
theorem speak_online_unavailable_witness :
    speak ⟨false, "/tmp", none⟩ ⟨none⟩ "hi" "online" "en" none 1 "u"
      = (⟨none⟩, [], .error (.importError "gTTS is not installed.")) :=
  speak_online_unavailable ⟨false, "/tmp", none⟩ ⟨none⟩ "hi" "en" none 1 "u"
    rfl (by decide)

/-- C9: on non-blank text, `speak` goes to the cloud backend exactly
when the tag equals `"online"`; every other tag — unknown or misspelled
ones included — is dispatched to the local backend, behaving exactly as
the tag `"offline"` would, and is never rejected. -/
theorem speak_engine_tag_dispatch
    (env : Env) (m : TTSManager) (text engine_type lang : String)
    (output_file : Option String) (speed : ℚ) (uuidHex : String)
    (hnb : (pyStrip text).isEmpty = false) :
    (engine_type = "online" →
      speak env m text engine_type lang output_file speed uuidHex
        = speak_online env m text lang output_file uuidHex)
    ∧ (engine_type ≠ "online" →
      speak env m text engine_type lang output_file speed uuidHex
        = speak env m text "offline" lang output_file speed uuidHex) := by
  constructor
  · intro he
    unfold speak
    simp [hnb, he]
  · intro he
    unfold speak
    simp [hnb, he]

/-- Witness for C9: the misspelled tag `"onlien"` behaves exactly like
the local tag `"offline"`. -/
theorem speak_engine_tag_dispatch_witness :
    speak ⟨true, "/tmp", none⟩ ⟨none⟩ "hi" "onlien" "en" none 1 "u"
      = speak ⟨true, "/tmp", none⟩ ⟨none⟩ "hi" "offline" "en" none 1 "u" :=
  (speak_engine_tag_dispatch ⟨true, "/tmp", none⟩ ⟨none⟩ "hi" "onlien" "en"
    none 1 "u" (by decide)).2 (by decide)

/-- Selecting a voice never changes the engine's rate property. -/
theorem set_offline_voice_rate (e : OfflineEngine) (lang : String) :
    (set_offline_voice e lang).1.rate = e.rate := by
  obtain ⟨cv, r, vo⟩ := e
  cases vo with
  | none => rfl
  | some vs =>
    cases hfind : vs.find? (voiceMatches lang) with
    | none => simp [set_offline_voice, hfind]
    | some v => simp [set_offline_voice, hfind]

/-- C2 counterexample: with base rate 200 and speed 0.999, the rate the
backend sets is `int(200 * 0.999) = 199`, while the rate the spec
claims, `round(200 * 0.999)`, is 200. -/
theorem offline_rate_truncation_cex :
    (speak_offline_engine ⟨false, "/tmp", none⟩ ⟨"v", some 200, some []⟩ "hi"
        "en" none (999/1000) "u").1.rate = some 199
    ∧ spec_rate_rounded (some 200) (999/1000) = 200
    ∧ (199 : Int) ≠ 200 := by
  refine ⟨?_, ?_, by decide⟩
  · simp only [speak_offline_engine, set_offline_voice, base_rate_of]
    norm_num [pyInt]
    decide
  · norm_num [spec_rate_rounded, ratFloor, base_rate_of]
    decide

/-- C2 (amended): the rate the local backend applies before rendering
is `int(currentEngineRate × speedMultiplier)` — truncation toward zero,
not rounding to nearest — with base rate 200 whenever the engine's rate
is unreadable or falsy; at the spec's own sample points the values
agree: base 200 with speed 2.0 gives 400, base 200 with speed 0.5 gives
100, and an unreadable base rate yields base 200. -/
theorem offline_rate_truncated (env : Env) (e : OfflineEngine)
    (text lang : String) (output_file : Option String) (speed : ℚ)
    (uuidHex : String) :
    (speak_offline_engine env e text lang output_file speed uuidHex).1.rate
      = some (pyInt ((base_rate_of e.rate : ℚ) * speed))
    ∧ pyInt ((200 : ℚ) * 2) = 400
    ∧ pyInt ((200 : ℚ) * (1/2)) = 100
    ∧ base_rate_of none = 200 := by
  refine ⟨?_, by norm_num [pyInt], by norm_num [pyInt], rfl⟩
  unfold speak_offline_engine
  simp [set_offline_voice_rate]

/-- C3: if some installed voice matches the requested language code
(substring of its identifier, or membership in its language list), the
engine's voice is set to a matching voice's identifier; if no voice
matches, the engine is left entirely unchanged and no effect or error
is produced. -/
theorem set_offline_voice_selection (e : OfflineEngine) (lang : String)
    (vs : List Voice) (hv : e.voices = some vs) :
    ((∃ v ∈ vs, voiceMatches lang v = true) →
      ∃ v ∈ vs, voiceMatches lang v = true ∧
        (set_offline_voice e lang).1.currentVoice = v.id)
    ∧ ((∀ v ∈ vs, voiceMatches lang v = false) →
      set_offline_voice e lang = (e, [])) := by
  constructor
  · rintro ⟨v, hvmem, hvm⟩
    cases hfind : vs.find? (voiceMatches lang) with
    | none =>
      exact absurd hvm (List.find?_eq_none.mp hfind v hvmem)
    | some w =>
      refine ⟨w, List.mem_of_find?_eq_some hfind, List.find?_some hfind, ?_⟩
      simp [set_offline_voice, hv, hfind]
  · intro hall
    have hfind : vs.find? (voiceMatches lang) = none := by
      rw [List.find?_eq_none]
      intro x hx
      simp [hall x hx]
    simp [set_offline_voice, hv, hfind]

/-- Witness for C3 (no-match side): with one installed voice and the
unmatched code `"zz"`, the engine is returned unchanged. -/
theorem set_offline_voice_selection_witness :
    set_offline_voice ⟨"prev", some 200, some [⟨"english-us", none⟩]⟩ "zz"
      = (⟨"prev", some 200, some [⟨"english-us", none⟩]⟩, []) :=
  (set_offline_voice_selection ⟨"prev", some 200, some [⟨"english-us", none⟩]⟩
    "zz" [⟨"english-us", none⟩] rfl).2 (by decide)

/-- C5 counterexample: with positional text `"   "` (whitespace-only,
so neither source yields non-blank text) the CLI does not exit with
code 1: a non-empty whitespace string is truthy and passes the
`if not text` check, the manager's validation error is then caught and
printed with the `Error:` prefix, and the process completes with exit
code 0. -/
theorem run_cli_blank_text_cex :
    run_cli ⟨false, "/tmp", none⟩ (fun _ => none)
        ⟨some "   ", none, "offline", "en", none, false, 1⟩ "u"
      = .completed (some (.valueError "Text is empty"))
    ∧ pyStrip "   " = "" := by
  exact ⟨by decide, by decide⟩

/-- C5 (amended): the CLI exits with code 1 exactly when the `--input`
file is missing or when the resolved text is absent or empty (Python
falsy); whitespace-only non-empty text is not a fatal-exit case — it
reaches the manager like any other text — and every failure the manager
raises is caught, printed with an `Error:` prefix, and the process
completes with exit code 0. -/
theorem run_cli_exit_behavior (env : Env) (fs : String → Option String)
    (args : CliArgs) (uuidHex : String) :
    (pyTruthyStr args.input = true → fs (args.input.getD "") = none →
      run_cli env fs args uuidHex
        = .exit1 ("Error: File " ++ args.input.getD "" ++ " not found."))
    ∧ (∀ t, resolve_text fs args = .ok t → pyTruthyStr t = false →
      run_cli env fs args uuidHex
        = .exit1 "Error: No text provided. Use arguments or run without arguments for GUI.")
    ∧ (∀ t e, resolve_text fs args = .ok (some t) → pyTruthyStr (some t) = true →
      (speak env ⟨env.initEngine⟩ t args.engine args.lang args.file args.speed
          uuidHex).2.2 = .error e →
      run_cli env fs args uuidHex = .completed (some e))
    ∧ (∀ t p, resolve_text fs args = .ok (some t) → pyTruthyStr (some t) = true →
      (speak env ⟨env.initEngine⟩ t args.engine args.lang args.file args.speed
          uuidHex).2.2 = .ok p →
      run_cli env fs args uuidHex = .completed none) := by
  refine ⟨?_, ?_, ?_, ?_⟩
  · intro h1 h2
    unfold run_cli resolve_text
    simp [h1, h2]
  · intro t hres hft
    unfold run_cli
    rw [hres]
    simp [hft]
  · intro t e hres ht hsp
    unfold run_cli
    rw [hres]
    simp only [ht, Bool.not_true, Bool.false_eq_true, if_false, Option.getD_some]
    unfold cli_speak_phase
    rw [hsp]
  · intro t p hres ht hsp
    unfold run_cli
    rw [hres]
    simp only [ht, Bool.not_true, Bool.false_eq_true, if_false, Option.getD_some]
    unfold cli_speak_phase
    rw [hsp]


/-- Witness for C5 (amended): a manager failure (the local engine
handle is absent) is caught and the CLI completes with exit code 0,
with the import error as the printed message. -/
theorem run_cli_exit_behavior_witness :
    run_cli ⟨false, "/tmp", none⟩ (fun _ => none)
        ⟨some "hi", none, "offline", "en", none, false, 1⟩ "u"
      = .completed (some (.importError "pyttsx3 is not working.")) :=
  (run_cli_exit_behavior ⟨false, "/tmp", none⟩ (fun _ => none)
      ⟨some "hi", none, "offline", "en", none, false, 1⟩ "u").2.2.1 "hi"
    (.importError "pyttsx3 is not working.") rfl (by decide) rfl

/-- C10: when a truthy `--input` path is supplied and the file exists,
the file's contents become the text to synthesize and the positional
argument is ignored entirely: the run is identical for every value of
the positional argument, and (for truthy contents) proceeds exactly as
the speak phase on the file's contents. -/
theorem run_cli_input_overrides_positional (env : Env)
    (fs : String → Option String) (args : CliArgs) (uuidHex : String)
    (p c : String) (hp : args.input = some p)
    (htr : pyTruthyStr args.input = true) (hf : fs p = some c) :
    (pyTruthyStr (some c) = true →
      run_cli env fs args uuidHex = cli_speak_phase env args c uuidHex)
    ∧ (∀ t, run_cli env fs { args with text := t } uuidHex
        = run_cli env fs args uuidHex) := by
  have htr' : pyTruthyStr (some p) = true := by rw [← hp]; exact htr
  have hres : resolve_text fs args = .ok (some c) := by
    simp [resolve_text, hp, htr', hf]
  constructor
  · intro hc
    unfold run_cli
    rw [hres]
    simp [hc]
  · intro t
    have hres2 : resolve_text fs { args with text := t } = .ok (some c) := by
      simp [resolve_text, hp, htr', hf]
    unfold run_cli
    rw [hres, hres2]
    rfl

/-- Witness for C10: with `--input f.txt` holding `"hello"` and
positional text `"ignored"`, the CLI runs the speak phase on
`"hello"`. -/
theorem run_cli_input_overrides_positional_witness :
    run_cli ⟨false, "/tmp", none⟩ (fun _ => some "hello")
        ⟨some "ignored", some "f.txt", "offline", "en", none, false, 1⟩ "u"
      = cli_speak_phase ⟨false, "/tmp", none⟩
          ⟨some "ignored", some "f.txt", "offline", "en", none, false, 1⟩
          "hello" "u" :=
  (run_cli_input_overrides_positional ⟨false, "/tmp", none⟩
      (fun _ => some "hello")
      ⟨some "ignored", some "f.txt", "offline", "en", none, false, 1⟩ "u"
      "f.txt" "hello" rfl (by decide) rfl).1 (by decide)

/-- Temp paths generated from uuid draws with distinct first-8-character
prefixes are distinct. -/
theorem get_temp_path_ne (tmpdir u1 u2 : String)
    (h : u1.toList.take 8 ≠ u2.toList.take 8) :
    get_temp_path tmpdir u1 ≠ get_temp_path tmpdir u2 := by
  intro he
  apply h
  have hd := congrArg String.data he
  simp only [get_temp_path, String.data_append, List.append_assoc] at hd
  have h1 := List.append_cancel_left hd
  have h2 := List.append_cancel_left h1
  have h3 := List.append_cancel_left h2
  exact List.append_cancel_right h3

/-- C6 counterexample: two consecutive omitted-output cloud calls whose
uuid draws are distinct can still return the same path, because only
the first 8 hex characters of the draw are kept. -/
theorem temp_path_collision_cex :
    (speak ⟨true, "/tmp", none⟩ ⟨none⟩ "hi" "online" "en" none 1
        "aabbccdd00").2.2 = .ok "/tmp/tts_aabbccdd.mp3"
    ∧ (speak ⟨true, "/tmp", none⟩ ⟨none⟩ "hi" "online" "en" none 1
        "aabbccdd11").2.2 = .ok "/tmp/tts_aabbccdd.mp3"
    ∧ "aabbccdd00" ≠ "aabbccdd11" := by
  exact ⟨rfl, rfl, by decide⟩

/-- C6 (amended): when a truthy (non-empty) output path is supplied,
both backends return exactly that path; when it is omitted, both
backends return the generated path, which always lies inside the system
temp directory; and two consecutive omitted-output calls return
distinct paths whenever the first 8 hex characters of their uuid draws
differ (equal 8-character prefixes collide, as the counterexample
shows). -/
theorem speak_output_path_spec (env : Env) (m : TTSManager)
    (e : OfflineEngine) (text lang : String) (speed : ℚ) (p u1 u2 : String)
    (hg : env.hasGtts = true) (he : m.offline_engine = some e)
    (hnb : (pyStrip text).isEmpty = false)
    (hp : pyTruthyStr (some p) = true)
    (hu : u1.toList.take 8 ≠ u2.toList.take 8) :
    (speak env m text "online" lang (some p) speed u1).2.2 = .ok p
    ∧ (speak env m text "offline" lang (some p) speed u1).2.2 = .ok p
    ∧ (speak env m text "online" lang none speed u1).2.2
        = .ok (get_temp_path env.tmpdir u1)
    ∧ (speak env m text "offline" lang none speed u2).2.2
        = .ok (get_temp_path env.tmpdir u2)
    ∧ (∀ u, ∃ fname, get_temp_path env.tmpdir u = env.tmpdir ++ "/" ++ fname)
    ∧ get_temp_path env.tmpdir u1 ≠ get_temp_path env.tmpdir u2 := by
  refine ⟨?_, ?_, ?_, ?_, fun u => ⟨_, rfl⟩, get_temp_path_ne env.tmpdir u1 u2 hu⟩
  · unfold speak speak_online
    simp [hnb, hg, hp]
  · unfold speak speak_offline
    simp [hnb, he, speak_offline_engine, hp]
  · unfold speak speak_online
    simp [hnb, hg, pyTruthyStr]
  · unfold speak speak_offline
    simp [hnb, he, speak_offline_engine, pyTruthyStr]

/-- Witness for C6 (amended): the supplied output path comes back
exactly, and two concrete draws with distinct 8-character prefixes give
distinct temp paths. -/
theorem speak_output_path_spec_witness :
    (speak ⟨true, "/tmp", none⟩ ⟨some ⟨"v", some 200, some []⟩⟩ "hi" "online"
        "en" (some "/out.mp3") 1 "aabbccdd00").2.2 = .ok "/out.mp3"
    ∧ get_temp_path "/tmp" "aabbccdd00" ≠ get_temp_path "/tmp" "eeff001122" :=
  ⟨(speak_output_path_spec ⟨true, "/tmp", none⟩ ⟨some ⟨"v", some 200, some []⟩⟩
      ⟨"v", some 200, some []⟩ "hi" "en" 1 "/out.mp3" "aabbccdd00" "eeff001122"
      rfl rfl (by decide) (by decide) (by decide)).1,
   (speak_output_path_spec ⟨true, "/tmp", none⟩ ⟨some ⟨"v", some 200, some []⟩⟩
      ⟨"v", some 200, some []⟩ "hi" "en" 1 "/out.mp3" "aabbccdd00" "eeff001122"
      rfl rfl (by decide) (by decide) (by decide)).2.2.2.2.2⟩

/-- C7: whenever mpv is installed, it is the first mechanism invoked,
ahead of every platform default, for every requested speed including
1.0; its command carries the speed flag exactly when the multiplier
differs from 1.0. -/
theorem play_audio_mpv_first (env : PlayEnv) (filename : String) (speed : ℚ)
    (h : env.which "mpv" = true) :
    (play_audio env filename speed).head?
      = some (.popen (mpv_cmd filename speed))
    ∧ (speed ≠ 1 → mpv_cmd filename speed
        = ["mpv", "--speed=" ++ toString speed, filename])
    ∧ (speed = 1 → mpv_cmd filename speed = ["mpv", filename]) := by
  refine ⟨?_, ?_, ?_⟩
  · unfold play_audio
    rw [h]
    cases hp : env.popenOk (mpv_cmd filename speed) <;> simp [hp]
  · intro hs
    simp [mpv_cmd, hs]
  · intro hs
    simp [mpv_cmd, hs]

/-- Witness for C7: with mpv installed, the first invocation is mpv
with the speed flag for speed 2.0. -/
theorem play_audio_mpv_first_witness :
    (play_audio ⟨.other, fun s => s == "mpv", fun _ => true, fun _ => true,
        false, false⟩ "a.mp3" 2).head? = some (.popen (mpv_cmd "a.mp3" 2))
    ∧ mpv_cmd "a.mp3" 2 = ["mpv", "--speed=" ++ toString (2 : ℚ), "a.mp3"] :=
  ⟨(play_audio_mpv_first ⟨.other, fun s => s == "mpv", fun _ => true,
      fun _ => true, false, false⟩ "a.mp3" 2 rfl).1,
   (play_audio_mpv_first ⟨.other, fun s => s == "mpv", fun _ => true,
      fun _ => true, false, false⟩ "a.mp3" 2 rfl).2.1 (by decide)⟩

/-- The speed-notice warning is not a blocking invocation. -/
theorem blocks_warnIfSpeed {speed : ℚ} {i : Invocation}
    (hi : i ∈ warnIfSpeed speed) : blocks i = false := by
  unfold warnIfSpeed at hi
  split at hi
  · simp at hi
    subst hi
    rfl
  · simp at hi

/-- In the last-resort fallback, the only blocking invocation is the
xdg-open call. -/
theorem blocks_last_resort {env : PlayEnv} {filename : String} {speed : ℚ}
    {i : Invocation} (hi : i ∈ last_resort env filename speed)
    (hb : blocks i = true) : i = .callBlocking ["xdg-open", filename] := by
  unfold last_resort at hi
  split at hi
  · split at hi
    · rcases List.mem_cons.mp hi with h | h
      · subst h
        simp [blocks] at hb
      · rw [blocks_warnIfSpeed h] at hb
        cases hb
    · rcases List.mem_cons.mp hi with h | h
      · subst h
        simp [blocks] at hb
      · simp at h
        subst h
        simp [blocks] at hb
  · split at hi
    · rcases List.mem_cons.mp hi with h | h
      · exact h
      · rw [blocks_warnIfSpeed h] at hb
        cases hb
    · rcases List.mem_cons.mp hi with h | h
      · exact h
      · simp at h
        subst h
        simp [blocks] at hb

/-- In the Linux candidate loop, the only blocking invocation comes
from falling through to the last resort. -/
theorem blocks_linux_loop {env : PlayEnv} {filename : String} {speed : ℚ}
    {i : Invocation} {ps : List String}
    (hi : i ∈ play_linux_loop env filename speed ps)
    (hb : blocks i = true) : i = .callBlocking ["xdg-open", filename] := by
  induction ps with
  | nil => exact blocks_last_resort hi hb
  | cons q rest ih =>
    unfold play_linux_loop at hi
    split at hi
    · split at hi
      · rcases List.mem_cons.mp hi with h | h
        · subst h
          simp [blocks] at hb
        · rw [blocks_warnIfSpeed h] at hb
          cases hb
      · rcases List.mem_cons.mp hi with h | h
        · subst h
          simp [blocks] at hb
        · exact ih h
    · exact ih hi

/-- In the platform dispatch, the only blocking invocations are the
Darwin afplay call and the last-resort xdg-open call. -/
theorem blocks_play_platform {env : PlayEnv} {filename : String} {speed : ℚ}
    {i : Invocation} (hi : i ∈ play_platform env filename speed)
    (hb : blocks i = true) :
    i = .callBlocking ["afplay", filename]
    ∨ i = .callBlocking ["xdg-open", filename] := by
  unfold play_platform at hi
  split at hi
  · split at hi
    · rcases List.mem_cons.mp hi with h | h
      · subst h
        simp [blocks] at hb
      · rw [blocks_warnIfSpeed h] at hb
        cases hb
    · rcases List.mem_cons.mp hi with h | h
      · subst h
        simp [blocks] at hb
      · exact .inr (blocks_last_resort h hb)
  · split at hi
    · rcases List.mem_cons.mp hi with h | h
      · exact .inl h
      · rw [blocks_warnIfSpeed h] at hb
        cases hb
    · rcases List.mem_cons.mp hi with h | h
      · exact .inl h
      · exact .inr (blocks_last_resort h hb)
  · exact .inr (blocks_linux_loop hi hb)

/-- C8 counterexample: on the Apple platform without mpv, the mechanism
invoked is a blocking `subprocess.call` on afplay — the call waits for
playback to finish instead of spawning and returning. -/
theorem play_audio_blocking_cex :
    play_audio ⟨.darwin, fun _ => false, fun _ => true, fun _ => true,
        false, false⟩ "a.mp3" 1
      = [.callBlocking ["afplay", "a.mp3"]]
    ∧ blocks (.callBlocking ["afplay", "a.mp3"]) = true := by
  exact ⟨by decide, rfl⟩

/-- C8 (amended): every playback invocation spawns the player and
returns immediately, except on the Apple platform branch, where afplay
is run with a blocking `subprocess.call`, and in the last-resort
fallback, where xdg-open is run with a blocking `subprocess.call`. -/
theorem play_audio_nonblocking_except (env : PlayEnv) (filename : String)
    (speed : ℚ) (i : Invocation) (hi : i ∈ play_audio env filename speed)
    (hb : blocks i = true) :
    i = .callBlocking ["afplay", filename]
    ∨ i = .callBlocking ["xdg-open", filename] := by
  unfold play_audio at hi
  split at hi
  · split at hi
    · simp at hi
      subst hi
      simp [blocks] at hb
    · rcases List.mem_cons.mp hi with h | h
      · subst h
        simp [blocks] at hb
      · exact blocks_play_platform h hb
  · exact blocks_play_platform hi hb

/-- Witness for C8 (amended): the blocking afplay invocation of the
Apple branch is classified on the afplay side of the exception. -/
theorem play_audio_nonblocking_except_witness :
    Invocation.callBlocking ["afplay", "a.mp3"]
        = .callBlocking ["afplay", "a.mp3"]
    ∨ Invocation.callBlocking ["afplay", "a.mp3"]
        = .callBlocking ["xdg-open", "a.mp3"] :=
  play_audio_nonblocking_except
    ⟨.darwin, fun _ => false, fun _ => true, fun _ => true, false, false⟩
    "a.mp3" 1 (.callBlocking ["afplay", "a.mp3"]) (by decide) rfl

end TTS
